import Mathlib

/-!
Shallow embedding of the flight-booking-api request handlers.

The repository consists of four AWS-Lambda-style request handlers:
`src/flights/handler.py` (the only one with real logic: a router
`lambda_handler` plus `list_flights` and `get_flight` over a DynamoDB
table) and three stubs (`src/auth/handler.py`, `src/bookings/handler.py`,
`src/users/handler.py`) that always answer 501.

Modelling choices:
- Python dicts that carry JSON-shaped data are modelled by the inductive
  `Json`; a dict is an ordered association list of string keys.
- A JSON body produced by json.dumps(x) is modelled as `.jsonBody x`; a
  response body that is a plain Python string (the 204 fallbacks in the
  router) is `.textBody s`.
- The API Gateway event is a record; the `pathParameters` and `headers`
  entries of the event dict can be absent, present with value None, or
  present with a mapping (`DictField`), because `event.get(k, default)`
  substitutes the default only when the key is absent, and calling .get
  on None raises AttributeError.
- The DynamoDB table is a `Store`: `scan` yields either an error message
  (the exception caught by the handler) or an optional Items list, and
  `getItem` likewise yields an error or an optional Item, per key.
- Each flights operation also returns the list of store operations it
  performed, in order, so that claims about store access can be stated.
- `get_flight` (and the router when it delegates to it, and the users
  stub, which reads the headers entry) returns `Option`: `none` models an
  unhandled Python exception, so no HTTP response is produced.
-/

/-- A JSON value: the shape of the data the handlers pass through. -/
inductive Json where
  | null
  | bool (b : Bool)
  | num (n : Int)
  | str (s : String)
  | arr (items : List Json)
  | obj (fields : List (String × Json))

/-- Python truthiness of a JSON-shaped value: None, False, 0, the empty
string, the empty list and the empty dict are falsy. -/
def Json.falsy : Json → Bool
  | .null => true
  | .bool b => !b
  | .num n => n == 0
  | .str s => s == ""
  | .arr items => items.isEmpty
  | .obj fields => fields.isEmpty

/-- Field lookup in a JSON object; `none` on non-objects. -/
def Json.getField : Json → String → Option Json
  | .obj fields, key => List.lookup key fields
  | _, _ => none

/-- Python truthiness of `response.get(k)`: absent gives None (falsy). -/
def optFalsy : Option Json → Bool
  | none => true
  | some j => j.falsy

/-- An entry of the event dict that may be absent, present with value
None, or present with a mapping. -/
inductive DictField (α : Type) where
  | absent
  | null
  | val (a : α)
deriving DecidableEq

/-- The API Gateway event, as the handlers read it: httpMethod and path
are always present strings; pathParameters and headers are optional
entries whose values, when present, are None or a string-to-string dict. -/
structure Event where
  httpMethod : String
  path : String
  pathParameters : DictField (List (String × String))
  headers : DictField (List (String × String))

/-- `event.get("pathParameters", \x7b\x7d)` followed by use as a dict:
absent key gives the empty default; a present None gives no dict at all
(the subsequent .get on None raises AttributeError). -/
def Event.pathParams (e : Event) : Option (List (String × String)) :=
  match e.pathParameters with
  | .absent => some []
  | .null => none
  | .val m => some m

/-- Same for `event.get("headers", \x7b\x7d)` in the users stub. -/
def Event.headerDict (e : Event) : Option (List (String × String)) :=
  match e.headers with
  | .absent => some []
  | .null => none
  | .val m => some m

/-- A response body: either json.dumps of a JSON value, or a plain
Python string (only the 204 fallbacks in the router use the latter). -/
inductive ResponseBody where
  | jsonBody (v : Json)
  | textBody (s : String)

/-- Field lookup inside a JSON body. -/
def ResponseBody.getField : ResponseBody → String → Option Json
  | .jsonBody v, key => v.getField key
  | .textBody _, _ => none

/-- An API Gateway response dict: statusCode is always present, the
headers entry may be absent (the error responses of the flights handler
build dicts with no headers key at all), body is always present. -/
structure Response where
  statusCode : Nat
  headers : Option (List (String × String))
  body : ResponseBody

/-- Python truthiness of a response dict: a dict is falsy exactly when it
is empty, and every response dict the handlers build contains at least
the statusCode key, hence is non-empty and truthy. -/
def Response.truthy (_ : Response) : Bool := true

/-- The Python `or` of a response dict and a fallback dict: the left
operand when it is truthy, otherwise the fallback. -/
def pyOrResponse (r fallback : Response) : Response :=
  if r.truthy then r else fallback

/-- The Python `a or b` over `dict.get` results for string values: the
left operand unless it is None or the empty string. -/
def pyOrStr (a b : Option String) : Option String :=
  match a with
  | some s => if s = "" then b else some s
  | none => b

/-- The headers dict attached to the success and stub responses. -/
def corsHeaders : List (String × String) :=
  [("Content-Type", "application/json"), ("Access-Control-Allow-Origin", "*")]

/-- A store operation performed during one invocation. -/
inductive StoreOp where
  | scan
  | getItem (key : String)
deriving DecidableEq

/-- The DynamoDB flights table as the handler sees it. `scan` is the
result of one table.scan() call: an exception message, or a response
whose Items entry is an optional list of records. `getItem key` is the
result of one table.get_item call for that key: an exception message, or
a response whose Item entry is an optional record. -/
structure Store where
  scan : Except String (Option (List Json))
  getItem : String → Except String (Option Json)

namespace Flights

/-- `list_flights` from src/flights/handler.py: scan the table, collect
`response.get("Items", [])`, answer 200 with the items as data; any
exception from the scan becomes a 500 whose body carries str(e). The
second component records the store operations performed. -/
def list_flights (event : Event) (store : Store) : Response × List StoreOp :=
  match store.scan with
  | .ok response =>
      let items : List Json := response.getD []
      ({ statusCode := 200
         headers := some corsHeaders
         body := .jsonBody (.obj [("success", .bool true), ("data", .arr items)]) },
       [StoreOp.scan])
  | .error e =>
      ({ statusCode := 500
         headers := none
         body := .jsonBody (.obj [("error", .str e)]) },
       [StoreOp.scan])

/-- `get_flight` from src/flights/handler.py. The pathParameters access
happens before the try block: when the event maps pathParameters to
None, the .get call raises and no response is produced (`none`). An
absent or empty flight_id answers 400 before any store access; then one
get_item call is made, a falsy Item (absent, None or empty) answers 404,
a truthy Item answers 200 with the item as data, and any exception from
the store becomes a 500 whose body carries str(e). -/
def get_flight (event : Event) (store : Store) : Option (Response × List StoreOp) :=
  match event.pathParams with
  | none => none
  | some path_params =>
    let flight_id : String := (List.lookup "flight_id" path_params).getD ""
    if flight_id = "" then
      some ({ statusCode := 400
              headers := none
              body := .jsonBody (.obj [("error", .str "Missing flight_id")]) },
            [])
    else
      match store.getItem flight_id with
      | .ok item =>
          if optFalsy item then
            some ({ statusCode := 404
                    headers := none
                    body := .jsonBody (.obj [("error", .str "Flight not found")]) },
                  [StoreOp.getItem flight_id])
          else
            some ({ statusCode := 200
                    headers := some corsHeaders
                    body := .jsonBody (.obj [("success", .bool true),
                                             ("data", item.getD Json.null)]) },
                  [StoreOp.getItem flight_id])
      | .error e =>
          some ({ statusCode := 500
                  headers := none
                  body := .jsonBody (.obj [("error", .str e)]) },
                [StoreOp.getItem flight_id])

/-- `"/flights/" in path`: Python substring containment. -/
def strContains (hay needle : String) : Bool :=
  decide (needle.data <:+: hay.data)

/-- `lambda_handler` from src/flights/handler.py: route GET /flights to
list_flights, GET with "/flights/" as a substring of the path to
get_flight (each behind the Python `or` with a 204 plain-text fallback),
anything else to a 404 dict with no headers key; the empty trace in that
case records that the store is not touched. -/
def lambda_handler (event : Event) (store : Store) : Option (Response × List StoreOp) :=
  if event.httpMethod = "GET" then
    if event.path = "/flights" then
      let r := list_flights event store
      some (pyOrResponse r.1 { statusCode := 204, headers := none,
                               body := .textBody "No flights found" }, r.2)
    else if strContains event.path "/flights/" then
      (get_flight event store).map
        (fun r => (pyOrResponse r.1 { statusCode := 204, headers := none,
                                      body := .textBody "Flight not found" }, r.2))
    else
      some ({ statusCode := 404
              headers := none
              body := .jsonBody (.obj [("error", .str "Not found")]) },
            [])
  else
    some ({ statusCode := 404
            headers := none
            body := .jsonBody (.obj [("error", .str "Not found")]) },
          [])

end Flights

namespace Auth

/-- `lambda_handler` from src/auth/handler.py: always 501 with CORS
headers, echoing the received path and method. -/
def lambda_handler (event : Event) : Response :=
  { statusCode := 501
    headers := some corsHeaders
    body := .jsonBody (.obj
      [("message", .str "Auth endpoint not implemented yet"),
       ("received_path", .str event.path),
       ("received_method", .str event.httpMethod)]) }

end Auth

namespace Bookings

/-- `lambda_handler` from src/bookings/handler.py: always 501 with CORS
headers, echoing the received path and method. -/
def lambda_handler (event : Event) : Response :=
  { statusCode := 501
    headers := some corsHeaders
    body := .jsonBody (.obj
      [("message", .str "Bookings endpoint not implemented yet"),
       ("received_path", .str event.path),
       ("received_method", .str event.httpMethod),
       ("note", .str "Will handle: create booking, list bookings, cancel booking")]) }

end Bookings

namespace Users

/-- `lambda_handler` from src/users/handler.py: reads the headers entry
of the event (a present None makes the .get chain raise, producing no
response), computes `headers.get("Authorization") or
headers.get("authorization")`, and answers 501 with CORS headers,
echoing path and method and reporting whether that chain produced a
non-None value. -/
def lambda_handler (event : Event) : Option Response :=
  match event.headerDict with
  | none => none
  | some headers =>
    let auth_header := pyOrStr (List.lookup "Authorization" headers)
                               (List.lookup "authorization" headers)
    some
      { statusCode := 501
        headers := some corsHeaders
        body := .jsonBody (.obj
          [("message", .str "Users endpoint not implemented yet"),
           ("received_path", .str event.path),
           ("received_method", .str event.httpMethod),
           ("has_auth_header", .bool auth_header.isSome),
           ("note", .str "Will return user profile based on JWT token")]) }

end Users

/-! Concrete fixtures for witnesses and counterexamples. -/

/-- Fields of a sample flight record. -/
def recFields : List (String × Json) :=
  [("flight_id", .str "FL123"), ("origin", .str "MAD"), ("destination", .str "BCN")]

/-- The sample flight record itself. -/
def recFL123 : Json := .obj recFields

/-- A store holding exactly the record recFL123 under key FL123. -/
def storeOne : Store :=
  { scan := .ok (some [recFL123])
    getItem := fun key => if key = "FL123" then .ok (some recFL123) else .ok none }

/-- A store whose reads raise with message boom. -/
def storeBoom : Store :=
  { scan := .error "boom", getItem := fun _ => .error "boom" }

/-- GET /flights. -/
def evList : Event :=
  { httpMethod := "GET", path := "/flights", pathParameters := .absent, headers := .absent }

/-- GET /flights/FL123 with the flight_id path parameter set. -/
def evGetFL123 : Event :=
  { httpMethod := "GET", path := "/flights/FL123",
    pathParameters := .val [("flight_id", "FL123")], headers := .absent }

/-- GET /flights/NOPE for a key the store does not hold. -/
def evGetMissing : Event :=
  { httpMethod := "GET", path := "/flights/NOPE",
    pathParameters := .val [("flight_id", "NOPE")], headers := .absent }

/-- POST /flights: no route matches. -/
def evListPost : Event :=
  { httpMethod := "POST", path := "/flights", pathParameters := .absent, headers := .absent }

/-- GET /api/flights/1: the collection path occurs only as an inner
substring of the path. -/
def evNestedPath : Event :=
  { httpMethod := "GET", path := "/api/flights/1", pathParameters := .absent, headers := .absent }

/-- GET /flights/ with no path parameters delivered. -/
def evNoParams : Event :=
  { httpMethod := "GET", path := "/flights/", pathParameters := .absent, headers := .absent }

/-- GET /users/me with an Authorization header present but empty. -/
def evUsersEmptyAuth : Event :=
  { httpMethod := "GET", path := "/users/me", pathParameters := .absent,
    headers := .val [("Authorization", "")] }

/-- GET /users/me with a non-empty Authorization header. -/
def evUsersAuth : Event :=
  { httpMethod := "GET", path := "/users/me", pathParameters := .absent,
    headers := .val [("Authorization", "tok")] }

/-! Theorems. -/

/-- C1: a GET request for /flights/{id} whose path-parameter mapping
carries the non-empty flight_id = id, against a store holding a record
keyed by that id, is routed to get_flight and answered 200 with body
success = true and data exactly the stored record, unmodified; in
particular the flight_id field of data equals id. Exactly one store
lookup, for that key, is performed. -/
theorem c1_get_flight_found (e : Event) (s : Store) (id : String)
    (ps : List (String × String)) (fields : List (String × Json))
    (hm : e.httpMethod = "GET") (hp : e.path = "/flights/" ++ id)
    (hps : e.pathParams = some ps)
    (hlook : List.lookup "flight_id" ps = some id) (hid : id ≠ "")
    (hstore : s.getItem id = .ok (some (.obj fields)))
    (hkey : List.lookup "flight_id" fields = some (.str id)) :
    Flights.lambda_handler e s =
      some ({ statusCode := 200, headers := some corsHeaders,
              body := .jsonBody (.obj [("success", .bool true), ("data", .obj fields)]) },
            [StoreOp.getItem id]) ∧
    Flights.get_flight e s =
      some ({ statusCode := 200, headers := some corsHeaders,
              body := .jsonBody (.obj [("success", .bool true), ("data", .obj fields)]) },
            [StoreOp.getItem id]) ∧
    Json.getField (.obj fields) "flight_id" = some (.str id) := by
  have hfields : fields ≠ [] := by
    intro hnil
    rw [hnil] at hkey
    simp [List.lookup] at hkey
  have hget : Flights.get_flight e s =
      some ({ statusCode := 200, headers := some corsHeaders,
              body := .jsonBody (.obj [("success", .bool true), ("data", .obj fields)]) },
            [StoreOp.getItem id]) := by
    unfold Flights.get_flight
    rw [hps]
    simp [hlook, hid, hstore, optFalsy, Json.falsy, hfields]
  have hne : e.path ≠ "/flights" := by
    rw [hp]
    intro hcontra
    have hlen := congrArg String.length hcontra
    rw [String.length_append] at hlen
    have h9 : ("/flights/" : String).length = 9 := rfl
    have h8 : ("/flights" : String).length = 8 := rfl
    omega
  have hsub : Flights.strContains e.path "/flights/" = true := by
    rw [hp]
    unfold Flights.strContains
    rw [decide_eq_true_eq, String.data_append]
    exact ⟨[], id.data, by simp⟩
  refine ⟨?_, hget, hkey⟩
  unfold Flights.lambda_handler
  simp only [hm, hne, hsub, if_true, if_false, ite_true, ite_false, if_neg hne]
  rw [hget]
  simp [pyOrResponse, Response.truthy]

/-- C1 witness: the theorem applied to the sample event, store and
record. -/
theorem c1_witness :
    Flights.lambda_handler evGetFL123 storeOne =
      some ({ statusCode := 200, headers := some corsHeaders,
              body := .jsonBody (.obj [("success", .bool true), ("data", .obj recFields)]) },
            [StoreOp.getItem "FL123"]) :=
  (c1_get_flight_found evGetFL123 storeOne "FL123" [("flight_id", "FL123")] recFields
    rfl rfl rfl rfl (by decide) rfl rfl).1

/-- C2: whenever the full scan succeeds with an Items list, list_flights
answers 200 with success = true and data exactly that list, in store
order, untruncated, with CORS headers, performing exactly one scan. -/
theorem c2_list_flights_scan (e : Event) (s : Store) (items : List Json)
    (h : s.scan = .ok (some items)) :
    Flights.list_flights e s =
      ({ statusCode := 200, headers := some corsHeaders,
         body := .jsonBody (.obj [("success", .bool true), ("data", .arr items)]) },
       [StoreOp.scan]) := by
  unfold Flights.list_flights
  rw [h]
  rfl

/-- C2 witness: the theorem applied to the one-record store. -/
theorem c2_witness :
    Flights.list_flights evList storeOne =
      ({ statusCode := 200, headers := some corsHeaders,
         body := .jsonBody (.obj [("success", .bool true), ("data", .arr [recFL123])]) },
       [StoreOp.scan]) :=
  c2_list_flights_scan evList storeOne [recFL123] rfl

/-- C4: when the path-parameter mapping (or the empty default taken for
an absent entry) lacks flight_id or maps it to the empty string,
get_flight answers 400 with body error = Missing flight_id, and the
empty trace shows the store is never queried. -/
theorem c4_missing_flight_id (e : Event) (s : Store) (ps : List (String × String))
    (hps : e.pathParams = some ps)
    (hid : List.lookup "flight_id" ps = none ∨ List.lookup "flight_id" ps = some "") :
    Flights.get_flight e s =
      some ({ statusCode := 400, headers := none,
              body := .jsonBody (.obj [("error", .str "Missing flight_id")]) },
            []) := by
  unfold Flights.get_flight
  rw [hps]
  rcases hid with h | h <;> simp [h]

/-- C4 witness: the theorem applied to GET /flights/ with no path
parameters delivered. -/
theorem c4_witness :
    Flights.get_flight evNoParams storeOne =
      some ({ statusCode := 400, headers := none,
              body := .jsonBody (.obj [("error", .str "Missing flight_id")]) },
            []) :=
  c4_missing_flight_id evNoParams storeOne [] rfl (Or.inl rfl)

/-- C5: with a non-empty flight_id, when the single-key lookup succeeds
but carries no Item, get_flight answers 404 with body error = Flight not
found. -/
theorem c5_not_found (e : Event) (s : Store) (ps : List (String × String)) (id : String)
    (hps : e.pathParams = some ps) (hlook : List.lookup "flight_id" ps = some id)
    (hid : id ≠ "") (hstore : s.getItem id = .ok none) :
    Flights.get_flight e s =
      some ({ statusCode := 404, headers := none,
              body := .jsonBody (.obj [("error", .str "Flight not found")]) },
            [StoreOp.getItem id]) := by
  unfold Flights.get_flight
  rw [hps]
  simp [hlook, hid, hstore, optFalsy]

/-- C5 witness: the theorem applied to a key the sample store does not
hold. -/
theorem c5_witness :
    Flights.get_flight evGetMissing storeOne =
      some ({ statusCode := 404, headers := none,
              body := .jsonBody (.obj [("error", .str "Flight not found")]) },
            [StoreOp.getItem "NOPE"]) :=
  c5_not_found evGetMissing storeOne [("flight_id", "NOPE")] "NOPE"
    rfl rfl (by decide) rfl

/-- C3 counterexample: for GET /api/flights/1 the path is not the
collection path followed by a segment, so the claim requires 404 with
body error = Not found; the code routes by substring containment,
invokes get_flight and answers 400. -/
theorem c3_counterexample :
    (Flights.lambda_handler evNestedPath storeOne).map (fun r => r.1.statusCode) =
      some 400 ∧ (400 : Nat) ≠ 404 :=
  ⟨rfl, by decide⟩

/-- C3 amended: the router invokes list_flights exactly when the method
is GET and the path is exactly /flights; it invokes get_flight exactly
when the method is GET, the path is not exactly /flights, and the path
contains "/flights/" as a substring anywhere, not necessarily as a
prefix; every other combination answers 404 with body error = Not found
and an empty trace, so the store is untouched. -/
theorem c3_amended_routing (e : Event) (s : Store) :
    (e.httpMethod = "GET" → e.path = "/flights" →
      Flights.lambda_handler e s = some (Flights.list_flights e s)) ∧
    (e.httpMethod = "GET" → e.path ≠ "/flights" →
      Flights.strContains e.path "/flights/" = true →
      Flights.lambda_handler e s = Flights.get_flight e s) ∧
    (¬ (e.httpMethod = "GET" ∧
        (e.path = "/flights" ∨ Flights.strContains e.path "/flights/" = true)) →
      Flights.lambda_handler e s =
        some ({ statusCode := 404, headers := none,
                body := .jsonBody (.obj [("error", .str "Not found")]) }, [])) := by
  refine ⟨?_, ?_, ?_⟩
  · intro h1 h2
    unfold Flights.lambda_handler
    simp [h1, h2, pyOrResponse, Response.truthy]
  · intro h1 h2 h3
    unfold Flights.lambda_handler
    simp only [h1, if_true, if_neg h2, h3, ite_true]
    cases hg : Flights.get_flight e s with
    | none => rfl
    | some r => simp [pyOrResponse, Response.truthy]
  · intro h
    by_cases h1 : e.httpMethod = "GET"
    · have h2 : e.path ≠ "/flights" := fun hp => h ⟨h1, Or.inl hp⟩
      have h3 : Flights.strContains e.path "/flights/" ≠ true :=
        fun hc => h ⟨h1, Or.inr hc⟩
      unfold Flights.lambda_handler
      simp [h1, h2, h3]
    · unfold Flights.lambda_handler
      simp [h1]

/-- C3 witness: the amended routing applied to three concrete requests,
one per branch. -/
theorem c3_witness :
    Flights.lambda_handler evList storeOne = some (Flights.list_flights evList storeOne) ∧
    Flights.lambda_handler evGetFL123 storeOne = Flights.get_flight evGetFL123 storeOne ∧
    Flights.lambda_handler evListPost storeOne =
      some ({ statusCode := 404, headers := none,
              body := .jsonBody (.obj [("error", .str "Not found")]) }, []) :=
  ⟨(c3_amended_routing evList storeOne).1 rfl rfl,
   (c3_amended_routing evGetFL123 storeOne).2.1 rfl (by decide) rfl,
   (c3_amended_routing evListPost storeOne).2.2 (by decide)⟩

/-- C6: a store read that raises with message m makes list_flights,
respectively get_flight past its validation, answer 500 with body
error = m, the message verbatim; and every invocation performs at most
one store operation, so there is no retry. -/
theorem c6_store_error (e : Event) (s : Store) (m : String) :
    (s.scan = .error m →
      Flights.list_flights e s =
        ({ statusCode := 500, headers := none,
           body := .jsonBody (.obj [("error", .str m)]) }, [StoreOp.scan])) ∧
    (∀ ps id, e.pathParams = some ps → List.lookup "flight_id" ps = some id → id ≠ "" →
      s.getItem id = .error m →
      Flights.get_flight e s =
        some ({ statusCode := 500, headers := none,
                body := .jsonBody (.obj [("error", .str m)]) }, [StoreOp.getItem id])) ∧
    (Flights.list_flights e s).2.length ≤ 1 ∧
    (∀ r, Flights.get_flight e s = some r → r.2.length ≤ 1) := by
  refine ⟨?_, ?_, ?_, ?_⟩
  · intro h
    unfold Flights.list_flights
    rw [h]
  · intro ps id hps hlook hid hstore
    unfold Flights.get_flight
    rw [hps]
    simp [hlook, hid, hstore]
  · unfold Flights.list_flights
    cases s.scan <;> simp
  · intro r hr
    unfold Flights.get_flight at hr
    cases hps : e.pathParams with
    | none => rw [hps] at hr; cases hr
    | some ps =>
      rw [hps] at hr
      by_cases hid : (List.lookup "flight_id" ps).getD "" = ""
      · simp only [hid, if_true, ite_true, Option.some.injEq] at hr
        simp [← hr]
      · simp only [hid, if_false, ite_false, if_neg hid] at hr
        cases hg : s.getItem ((List.lookup "flight_id" ps).getD "") with
        | ok item =>
          rw [hg] at hr
          by_cases hf : optFalsy item = true <;> simp [hf] at hr <;> simp [← hr]
        | error msg =>
          rw [hg] at hr
          simp only [Option.some.injEq] at hr
          simp [← hr]

/-- C6 witness: the theorem applied to the raising store for both
operations. -/
theorem c6_witness :
    Flights.list_flights evList storeBoom =
      ({ statusCode := 500, headers := none,
         body := .jsonBody (.obj [("error", .str "boom")]) }, [StoreOp.scan]) ∧
    Flights.get_flight evGetFL123 storeBoom =
      some ({ statusCode := 500, headers := none,
              body := .jsonBody (.obj [("error", .str "boom")]) },
            [StoreOp.getItem "FL123"]) :=
  ⟨(c6_store_error evList storeBoom "boom").1 rfl,
   (c6_store_error evGetFL123 storeBoom "boom").2.1 [("flight_id", "FL123")] "FL123"
     rfl rfl (by decide) rfl⟩

/-- C7: the claim says every 4xx and 5xx response carries the two
headers; in the code the 500 branch of list_flights and the 400, 404 and
500 branches of get_flight build dicts with no headers entry at all, as
this evaluation at a raising store and at a missing flight_id shows. -/
theorem c7_error_responses_lack_headers :
    (Flights.list_flights evList storeBoom).1.statusCode = 500 ∧
    (Flights.list_flights evList storeBoom).1.headers = none ∧
    (Flights.get_flight evNoParams storeOne).map (fun r => (r.1.statusCode, r.1.headers)) =
      some (400, none) ∧
    (Flights.lambda_handler evListPost storeOne).map (fun r => (r.1.statusCode, r.1.headers)) =
      some (404, none) :=
  ⟨rfl, rfl, rfl, rfl⟩

/-- C8 counterexample: a request whose headers carry the Authorization
key with an empty value. The header is present, yet the users stub
reports has_auth_header = false, because the Python or-chain treats the
empty string as falsy and the lowercase key is absent; this refutes the
claimed equivalence with header presence. -/
theorem c8_counterexample :
    List.lookup "Authorization" [("Authorization", "")] = some "" ∧
    (Users.lambda_handler evUsersEmptyAuth).map
        (fun r => r.body.getField "has_auth_header") =
      some (some (.bool false)) :=
  ⟨rfl, rfl⟩

/-- C8 amended: every request delivered to the auth, bookings or users
stub with a headers mapping (or none at all) is answered 501 with
received_path and received_method echoing the input, and the users stub
reports has_auth_header = true exactly when the Authorization key maps
to a non-empty value or the lowercase authorization key is present; an
Authorization key with an empty value and no lowercase key yields
false. -/
theorem c8_amended_stub_behavior (e : Event) (hs : List (String × String))
    (hh : e.headerDict = some hs) :
    (Auth.lambda_handler e).statusCode = 501 ∧
    (Auth.lambda_handler e).body.getField "received_path" = some (.str e.path) ∧
    (Auth.lambda_handler e).body.getField "received_method" = some (.str e.httpMethod) ∧
    (Bookings.lambda_handler e).statusCode = 501 ∧
    (Bookings.lambda_handler e).body.getField "received_path" = some (.str e.path) ∧
    (Bookings.lambda_handler e).body.getField "received_method" = some (.str e.httpMethod) ∧
    ∃ r, Users.lambda_handler e = some r ∧ r.statusCode = 501 ∧
      r.body.getField "received_path" = some (.str e.path) ∧
      r.body.getField "received_method" = some (.str e.httpMethod) ∧
      (r.body.getField "has_auth_header" = some (.bool true) ↔
        ((∃ v, List.lookup "Authorization" hs = some v ∧ v ≠ "") ∨
         (List.lookup "authorization" hs).isSome = true)) := by
  refine ⟨rfl, rfl, rfl, rfl, rfl, rfl, ?_⟩
  unfold Users.lambda_handler
  rw [hh]
  refine ⟨_, rfl, rfl, rfl, rfl, ?_⟩
  have hfield :
      (ResponseBody.jsonBody (.obj
        [("message", .str "Users endpoint not implemented yet"),
         ("received_path", .str e.path),
         ("received_method", .str e.httpMethod),
         ("has_auth_header", .bool (pyOrStr (List.lookup "Authorization" hs)
             (List.lookup "authorization" hs)).isSome),
         ("note", .str "Will return user profile based on JWT token")])).getField
        "has_auth_header" =
      some (.bool (pyOrStr (List.lookup "Authorization" hs)
        (List.lookup "authorization" hs)).isSome) := rfl
  rw [hfield]
  simp only [Option.some.injEq, Json.bool.injEq]
  cases ha : List.lookup "Authorization" hs with
  | none =>
    simp [pyOrStr]
  | some v =>
    by_cases hv : v = ""
    · subst hv
      simp [pyOrStr]
    · simp [pyOrStr, hv]

/-- C8 witness: the amended theorem applied to a request carrying a
non-empty Authorization header. -/
theorem c8_witness :
    (Auth.lambda_handler evUsersAuth).statusCode = 501 ∧
    (Bookings.lambda_handler evUsersAuth).statusCode = 501 :=
  ⟨(c8_amended_stub_behavior evUsersAuth [("Authorization", "tok")] rfl).1,
   (c8_amended_stub_behavior evUsersAuth [("Authorization", "tok")] rfl).2.2.2.1⟩

/-- C9 counterexample: the claim says get_flight returns a structured
response dict for every request; for a request whose pathParameters
entry is present with value None, get_flight raises before its try
block and produces no response at all. -/
theorem c9_counterexample :
    Flights.get_flight
      { httpMethod := "GET", path := "/flights/X",
        pathParameters := .null, headers := .absent } storeBoom = none := rfl

/-- The status of a list_flights response is 200 or 500. -/
theorem list_flights_statusCode (e : Event) (s : Store) :
    (Flights.list_flights e s).1.statusCode = 200 ∨
    (Flights.list_flights e s).1.statusCode = 500 := by
  unfold Flights.list_flights
  cases s.scan <;> simp

/-- The status of a get_flight response, when one is produced, is 400,
404, 200 or 500. -/
theorem get_flight_statusCode (e : Event) (s : Store) (r : Response × List StoreOp)
    (h : Flights.get_flight e s = some r) :
    r.1.statusCode = 400 ∨ r.1.statusCode = 404 ∨
    r.1.statusCode = 200 ∨ r.1.statusCode = 500 := by
  unfold Flights.get_flight at h
  cases hps : e.pathParams with
  | none => rw [hps] at h; cases h
  | some ps =>
    rw [hps] at h
    by_cases hid : (List.lookup "flight_id" ps).getD "" = ""
    · simp only [hid, if_true, ite_true, Option.some.injEq] at h
      simp [← h]
    · simp only [if_neg hid] at h
      cases hgi : s.getItem ((List.lookup "flight_id" ps).getD "") with
      | ok item =>
        rw [hgi] at h
        by_cases hf : optFalsy item = true <;> simp [hf] at h <;> simp [← h]
      | error msg =>
        rw [hgi] at h
        simp only [Option.some.injEq] at h
        simp [← h]

/-- Whenever the pathParameters entry of the event is not a present
None, get_flight produces a response. -/
theorem get_flight_total (e : Event) (s : Store)
    (hnull : e.pathParameters ≠ DictField.null) :
    (Flights.get_flight e s).isSome = true := by
  unfold Flights.get_flight
  cases hps : e.pathParams with
  | none =>
    exfalso
    unfold Event.pathParams at hps
    cases hpp : e.pathParameters <;> rw [hpp] at hps <;> simp at hps
    exact hnull hpp
  | some ps =>
    by_cases hid : (List.lookup "flight_id" ps).getD "" = ""
    · simp [hid]
    · simp only [if_neg hid]
      cases s.getItem ((List.lookup "flight_id" ps).getD "") with
      | ok item => by_cases hf : optFalsy item = true <;> simp [hf]
      | error msg => simp

/-- C9 amended: the router never returns status 204: every response it
produces has another status, the Python or-fallback always takes its
left operand because a response dict is never empty, and get_flight
produces a response whenever the pathParameters entry is not a present
None; only in that raising case is no response produced at all. -/
theorem c9_amended_no_204 (e : Event) (s : Store) :
    (∀ r, Flights.lambda_handler e s = some r → r.1.statusCode ≠ 204) ∧
    (∀ r fb, pyOrResponse r fb = r) ∧
    (e.pathParameters ≠ DictField.null → (Flights.get_flight e s).isSome = true) := by
  refine ⟨?_, fun r fb => rfl, get_flight_total e s⟩
  intro r hr
  unfold Flights.lambda_handler at hr
  by_cases h1 : e.httpMethod = "GET"
  · rw [if_pos h1] at hr
    by_cases h2 : e.path = "/flights"
    · rw [if_pos h2] at hr
      have hr2 := Option.some.inj hr
      subst hr2
      change (Flights.list_flights e s).1.statusCode ≠ 204
      rcases list_flights_statusCode e s with h | h <;> rw [h] <;> decide
    · rw [if_neg h2] at hr
      by_cases h3 : Flights.strContains e.path "/flights/" = true
      · rw [if_pos h3] at hr
        cases hg : Flights.get_flight e s with
        | none => rw [hg] at hr; cases hr
        | some q =>
          rw [hg] at hr
          have hr2 : (pyOrResponse q.1
              { statusCode := 204, headers := none,
                body := ResponseBody.textBody "Flight not found" }, q.2) = r :=
            Option.some.inj hr
          subst hr2
          change q.1.statusCode ≠ 204
          rcases get_flight_statusCode e s q hg with h | h | h | h <;> rw [h] <;> decide
      · rw [if_neg h3] at hr
        have hr2 := Option.some.inj hr
        subst hr2
        decide
  · rw [if_neg h1] at hr
    have hr2 := Option.some.inj hr
    subst hr2
    decide

/-- C9 witness: the no-204 property applied to one produced response and
the totality conjunct applied to a request with a path-parameter
mapping. -/
theorem c9_witness :
    (({ statusCode := 404, headers := none,
        body := .jsonBody (.obj [("error", .str "Not found")]) } : Response),
      ([] : List StoreOp)).1.statusCode ≠ 204 ∧
    (Flights.get_flight evGetFL123 storeOne).isSome = true :=
  ⟨(c9_amended_no_204 evListPost storeOne).1 _ rfl,
   (c9_amended_no_204 evGetFL123 storeOne).2.2 (by decide)⟩

/-- C10: get_flight reads the pathParameters entry outside its try
block with a default that applies only when the entry is absent: when
the entry is present with value None the .get call on None raises and
no response is produced, and in every other case a response is
produced. -/
theorem c10_null_path_parameters (e : Event) (s : Store) :
    (e.pathParameters = DictField.null → Flights.get_flight e s = none) ∧
    (e.pathParameters ≠ DictField.null → (Flights.get_flight e s).isSome = true) := by
  constructor
  · intro h
    unfold Flights.get_flight Event.pathParams
    rw [h]
  · exact get_flight_total e s

/-- C10 witness: the theorem applied to a request whose pathParameters
entry is a present None, and to one with a mapping. -/
theorem c10_witness :
    Flights.get_flight
      { httpMethod := "GET", path := "/flights/FL123",
        pathParameters := .null, headers := .absent } storeOne = none ∧
    (Flights.get_flight evGetMissing storeOne).isSome = true :=
  ⟨(c10_null_path_parameters
      { httpMethod := "GET", path := "/flights/FL123",
        pathParameters := .null, headers := .absent } storeOne).1 rfl,
   (c10_null_path_parameters evGetMissing storeOne).2 (by decide)⟩
